import Mathlib

/-!
Verification of the 2D rigid-body physics engine in `src/physics/`
(`space.rs`, `body.rs`, `shape.rs`).

Scalars are modelled as real numbers.  Where the Rust code can hit an
IEEE-754 division by zero whose `NaN`/`Inf` result is then filtered out by a
comparison (`lines_intersect` with parallel lines), the embedding makes the
filtered outcome explicit with a guard, so that the Lean function returns
exactly what the Rust function returns on those inputs.
-/

noncomputable section

namespace Dio

/-- 2D vector, from `Vec2` in `src/physics/space.rs`. -/
@[ext]
structure Vec2 where
  x : ℝ
  y : ℝ

namespace Vec2

/-- `Vec2::new`. -/
def new (x y : ℝ) : Vec2 := ⟨x, y⟩

/-- `impl ops::Add for Vec2`. -/
instance : Add Vec2 := ⟨fun a b => ⟨a.x + b.x, a.y + b.y⟩⟩

/-- `impl ops::Sub for Vec2`. -/
instance : Sub Vec2 := ⟨fun a b => ⟨a.x - b.x, a.y - b.y⟩⟩

theorem add_def (a b : Vec2) : a + b = ⟨a.x + b.x, a.y + b.y⟩ := rfl

theorem sub_def (a b : Vec2) : a - b = ⟨a.x - b.x, a.y - b.y⟩ := rfl

/-- `Vec2::dot`. -/
def dot (a b : Vec2) : ℝ := a.x * b.x + a.y * b.y

/-- `Vec2::norm`: Euclidean length. -/
def norm (a : Vec2) : ℝ := Real.sqrt (a.x * a.x + a.y * a.y)

/-- `Vec2::mul` by a scalar. -/
def mul (a : Vec2) (s : ℝ) : Vec2 := ⟨a.x * s, a.y * s⟩

/-- `Vec2::abs`, componentwise absolute value. -/
def vabs (a : Vec2) : Vec2 := ⟨|a.x|, |a.y|⟩

/-- `Vec2::align_quadrant`: multiply each component by the sign of the
corresponding component of `align` (direct translation of
`align.x / align.x.abs()`; real division makes this `0` at a zero
component, where the Rust code would produce `NaN` — no verified claim
evaluates that case). -/
def align_quadrant (a : Vec2) (align : Vec2) : Vec2 :=
  let reduced_x := align.x / |align.x|
  let reduced_y := align.y / |align.y|
  ⟨a.x * reduced_x, a.y * reduced_y⟩

/-- `Vec2::unit`: normalise, returning the zero vector when the norm is `0`. -/
def unit (a : Vec2) : Vec2 :=
  if a.norm = 0 then Vec2.new 0 0 else a.mul (1 / a.norm)

/-- `Vec2::scale_to` (see the caveat on `align_quadrant` about zero
components of `self`, unused by the verified claims). -/
def scale_to (a : Vec2) (vector : Vec2) : Vec2 :=
  let aligned_vector := vector.align_quadrant a
  let scale_x := aligned_vector.x / a.x
  let scale_y := aligned_vector.y / a.y
  let scale := min |scale_x| |scale_y|
  a.mul scale

/-- `Vec2::projection_onto`: projection of `a` onto `vector`, returning the
zero vector when `vector` is the zero vector. -/
def projection_onto (a : Vec2) (vector : Vec2) : Vec2 :=
  if vector.x = 0 ∧ vector.y = 0 then Vec2.new 0 0
  else vector.mul (a.dot vector / vector.dot vector)

/-- `Vec2::orthogonalise`. -/
def orthogonalise (a : Vec2) (vector : Vec2) : Vec2 :=
  a - a.projection_onto vector

/-- `Vec2::get_unit_orthogonal`. -/
def get_unit_orthogonal (a : Vec2) : Vec2 :=
  (Vec2.mk (a.y * (-1)) a.x).unit

/-- `Vec2::angle_with`. -/
def angle_with (a b : Vec2) : ℝ :=
  Real.arccos (a.dot b / (a.norm * b.norm))

end Vec2

/-- `VELOCITY_THRESHOLD` in `src/physics/space.rs`: collisions with relative
speed below this are treated inelastically. -/
def VELOCITY_THRESHOLD : ℝ := 1.0

/-- `GROUND_ANGLE` in `src/physics/space.rs`. -/
def GROUND_ANGLE : ℝ := 3.14 / 16.0

/-- One collision record, from `Collision` in `src/physics/body.rs`. -/
structure Collision where
  point_a : Vec2
  point_b : Vec2
  normal_a : Vec2
  normal_b : Vec2

/-- Axis-aligned rectangle with half-extents, from `Rect` in
`src/physics/shape.rs` (the only `Shape` variant). -/
structure Rect where
  hw : ℝ
  hh : ℝ

/-- `f64::MAX`, the initial value of `lowest_norm` in `Rect::cast_ray`. -/
def f64MAX : ℝ := 1.7976931348623157e308

/-- `lines_intersect` in `src/physics/shape.rs`: solve for the parameter `t`
on the first line and accept `t ∈ [0,1]`; the parameter on the second line is
never constrained (its computation is commented out in the source).  When the
determinant `d` is zero the Rust code divides by zero, producing `±Inf`/`NaN`
for `t`, which always fails the `0 ≤ t ≤ 1` test; the guard below encodes that
outcome. -/
def lines_intersect (p1 d1 p2 d2 : Vec2) : Option Vec2 :=
  let x00 := p1.x; let y00 := p1.y
  let x01 := d1.x; let y01 := d1.y
  let x10 := p2.x; let y10 := p2.y
  let x11 := d2.x; let y11 := d2.y
  let d := x11 * y01 - x01 * y11
  if d = 0 then none
  else
    let t := (1 / d) * (-(-(x00 - x10) * y11 + (y00 - y10) * x11))
    if 0 ≤ t ∧ t ≤ 1 then some (p1 + d1.mul t) else none

namespace Rect

/-- `Rect::bounds`. -/
def bounds (r : Rect) (pos : Vec2) : ℝ × ℝ × ℝ × ℝ :=
  (pos.x - r.hw, pos.y - r.hh, pos.x + r.hw, pos.y + r.hh)

/-- `Rect::mass`. -/
def mass (r : Rect) (density : ℝ) : ℝ :=
  (r.hw * 2) * (r.hh * 2) * density

/-- `Rect::contains`: inclusive bounds test. -/
def contains (r : Rect) (pos point : Vec2) : Prop :=
  let (x1, y1, x2, y2) := r.bounds pos
  x1 ≤ point.x ∧ point.x ≤ x2 ∧ y1 ≤ point.y ∧ point.y ≤ y2

/-- The four borders tested by `Rect::cast_ray`, in source order: each is a
start point and a direction vector. -/
def borders (r : Rect) (pos : Vec2) : List (Vec2 × Vec2) :=
  let (x1, y1, x2, y2) := r.bounds pos
  [(Vec2.new x1 y1, Vec2.new 0 (y2 - y1)),
   (Vec2.new x1 y2, Vec2.new (x2 - x1) 0),
   (Vec2.new x2 y1, Vec2.new 0 (y2 - y1)),
   (Vec2.new x1 y1, Vec2.new (x2 - x1) 0)]

/-- The accumulator loop of `Rect::cast_ray`: keep the intersection of
strictly smallest `norm` (distance from the world origin) seen so far,
starting from `lowest_norm = f64::MAX`. -/
def cast_ray_step (acc : ℝ × Option Vec2) (inter : Option Vec2) : ℝ × Option Vec2 :=
  match inter with
  | some v => if v.norm < acc.1 then (v.norm, some v) else acc
  | none => acc

/-- `Rect::cast_ray` in `src/physics/shape.rs`. -/
def cast_ray (r : Rect) (pos origin dir : Vec2) : Option Vec2 :=
  ((r.borders pos).foldl
    (fun acc bd => cast_ray_step acc (lines_intersect origin dir bd.1 bd.2))
    (f64MAX, none)).2

/-- `Rect::collides_with` in `src/physics/shape.rs` (rectangle versus
rectangle, the only case). -/
def collides_with (r : Rect) (self_pos : Vec2) (other : Rect) (other_pos : Vec2) :
    Option Collision :=
  let (x1, y1, x2, y2) := r.bounds self_pos
  let cx := (x1 + x2) / 2
  let cy := (y1 + y2) / 2
  let (ox1, oy1, ox2, oy2) := other.bounds other_pos
  let collides := ¬(y2 < oy1 ∨ y1 > oy2 ∨ x1 > ox2 ∨ x2 < ox1)
  if collides then
    let ix1 := max x1 ox1
    let iy1 := max y1 oy1
    let ix2 := min x2 ox2
    let iy2 := min y2 oy2
    let collision_point := Vec2.new ((ix1 + ix2) / 2) ((iy1 + iy2) / 2)
    let self_collision_normal :=
      if ix2 - ix1 > iy2 - iy1 then
        -- top/bottom collision
        if collision_point.y < cy then Vec2.new 0 1 else Vec2.new 0 (-1)
      else
        -- side collision
        if collision_point.x < cx then Vec2.new 1 0 else Vec2.new (-1) 0
    some { point_a := collision_point
           point_b := collision_point
           normal_a := self_collision_normal
           normal_b := self_collision_normal.mul (-1) }
  else none

end Rect

/-- `BodyType` in `src/physics/body.rs`. -/
inductive BodyType where
  | Static
  | Kinematic
  | Dynamic
deriving DecidableEq

/-- `BodyDef` in `src/physics/body.rs`.  The source field `body_type` keeps
its name; `def` is renamed to `bdef` at the `Body` level because `def` is a
Lean keyword. -/
structure BodyDef where
  density : ℝ
  body_type : BodyType
  restitution : ℝ
  friction : ℝ

/-- `BodyDef::new`. -/
def BodyDef.new (body_type : BodyType) : BodyDef :=
  { density := 1, body_type := body_type, restitution := 0.5, friction := 0.6 }

/-- `Body` in `src/physics/body.rs`.  `user_data` is omitted (opaque to the
physics); the field `def` is renamed `bdef`; `shape` is the only shape kind,
`Rect`.  The flag `on_ground` is written by `get_collision_impulses` in
`src/physics/space.rs` and is carried here so that function can be embedded
faithfully. -/
structure Body where
  vel : Vec2
  pos : Vec2
  bdef : BodyDef
  shape : Rect
  applied_forces : List Vec2
  applied_impulses : List Vec2
  applied_friction : List Vec2
  prev_net_force : Vec2
  on_ground : Bool

namespace Body

/-- `Body::new`. -/
def new (shape : Rect) (bdef : BodyDef) : Body :=
  { vel := Vec2.new 0 0, pos := Vec2.new 0 0, bdef := bdef, shape := shape,
    applied_forces := [], applied_impulses := [], applied_friction := [],
    prev_net_force := Vec2.new 0 0, on_ground := false }

/-- `Body::mass`. -/
def mass (b : Body) : ℝ := b.shape.mass b.bdef.density

/-- `Body::momentum`. -/
def momentum (b : Body) : Vec2 := b.vel.mul b.mass

/-- `Body::restitution`. -/
def restitution (b : Body) : ℝ := b.bdef.restitution

/-- `Body::is_static`: true exactly when the body type is not `Dynamic`. -/
def is_static (b : Body) : Bool := b.bdef.body_type != BodyType.Dynamic

/-- `Body::apply_force`: push onto the per-step accumulator. -/
def apply_force (b : Body) (force : Vec2) : Body :=
  { b with applied_forces := b.applied_forces ++ [force] }

/-- `Body::apply_impulse`. -/
def apply_impulse (b : Body) (impulse : Vec2) : Body :=
  { b with applied_impulses := b.applied_impulses ++ [impulse] }

/-- `Body::apply_friction`. -/
def apply_friction (b : Body) (friction : Vec2) : Body :=
  { b with applied_friction := b.applied_friction ++ [friction] }

/-- `Body::current_net_force`: sum of applied forces plus each applied
impulse divided by `dt`. -/
def current_net_force (b : Body) (dt : ℝ) : Vec2 :=
  let net := b.applied_forces.foldl (fun nf force => nf + force) (Vec2.new 0 0)
  b.applied_impulses.foldl (fun nf impulse => nf + impulse.mul (1 / dt)) net

/-- The friction loop body inside `Body::update`: subtract from the running
net force the unit vector of `required_impulse.orthogonalise f`, scaled by
`min (|f| / dt) |required_impulse|`. -/
def friction_step (required_impulse : Vec2) (dt : ℝ) (nf f : Vec2) : Vec2 :=
  let component_momentum := required_impulse.orthogonalise f
  let unit_component_momentum := component_momentum.unit
  let resultant_norm := min ((f.mul (1 / dt)).norm) required_impulse.norm
  nf - unit_component_momentum.mul resultant_norm

/-- `Body::update` in `src/physics/body.rs`. -/
def update (b : Body) (dt : ℝ) : Body :=
  let b1 :=
    if b.bdef.body_type = BodyType.Dynamic then
      let required_impulse := b.momentum
      let net_force := b.applied_friction.foldl
        (friction_step required_impulse dt) (b.current_net_force dt)
      let a := net_force.mul (1 / b.mass)
      { b with vel := b.vel + a.mul dt, prev_net_force := net_force }
    else b
  let b2 :=
    if b1.bdef.body_type ≠ BodyType.Static then
      { b1 with pos := b1.pos + b1.vel.mul dt }
    else b1
  { b2 with applied_forces := [], applied_impulses := [], applied_friction := [] }

end Body

/-- `check_body_collision` in `src/physics/space.rs`. -/
def check_body_collision (b1 b2 : Body) : Option Collision :=
  b1.shape.collides_with b1.pos b2.shape b2.pos

/-- `get_collision_impulses` in `src/physics/space.rs`.  The Rust function
returns the impulse pair and, as a side effect, sets each body's `on_ground`
flag; here it returns the pair together with the updated bodies. -/
def get_collision_impulses (collision : Collision) (b1 b2 : Body) :
    (Vec2 × Vec2) × Body × Body :=
  let relative_speed := (b1.vel - b2.vel).norm
  let collision_restitution :=
    if relative_speed < VELOCITY_THRESHOLD then 0
    else (b1.restitution + b2.restitution) / 2
  -- the source zeroes `momentum1`/`momentum2` for a Static participant and
  -- zeroes `total_momentum` unless both participants are movable
  let momentum1 := if b1.is_static then Vec2.new 0 0 else b1.momentum
  let momentum2 := if b2.is_static then Vec2.new 0 0 else b2.momentum
  let total_momentum :=
    if ¬b1.is_static ∧ ¬b2.is_static then b1.momentum + b2.momentum
    else Vec2.new 0 0
  let final_velocity := total_momentum.mul (1 / (b1.mass + b2.mass))
  let deformation_impulse1 :=
    (final_velocity.mul b1.mass - momentum1).projection_onto collision.normal_a
  let deformation_impulse2 :=
    (final_velocity.mul b2.mass - momentum2).projection_onto collision.normal_a
  let restoration_impulse1 := deformation_impulse1.mul collision_restitution
  let restoration_impulse2 := deformation_impulse2.mul collision_restitution
  let b1' :=
    if |deformation_impulse1.angle_with (Vec2.new 0 (-1))| < GROUND_ANGLE then
      { b1 with on_ground := true }
    else b1
  let b2' :=
    if |deformation_impulse2.angle_with (Vec2.new 0 (-1))| < GROUND_ANGLE then
      { b2 with on_ground := true }
    else b2
  ((deformation_impulse1 + restoration_impulse1,
    deformation_impulse2 + restoration_impulse2), b1', b2')

/-- `apply_collision_position_correction` in `src/physics/space.rs`. -/
def apply_collision_position_correction (collision : Collision) (b1 b2 : Body) :
    Body × Body :=
  let centre_point := collision.point_a
  let correction_vector := collision.normal_a
  let penetration_vector :=
    b1.shape.cast_ray b1.pos centre_point (correction_vector.mul (-5))
  let displacement :=
    match penetration_vector with
    | some thing => correction_vector.scale_to (centre_point - thing)
    | none => Vec2.new 0 0
  if ¬b1.is_static ∧ ¬b2.is_static then
    ({ b1 with pos := b1.pos + displacement },
     { b2 with pos := b2.pos - displacement })
  else
    (if b2.is_static ∧ ¬b1.is_static then
       { b1 with pos := b1.pos + displacement.mul 2 }
     else b1,
     if b1.is_static ∧ ¬b2.is_static then
       { b2 with pos := b2.pos - displacement.mul 2 }
     else b2)

/-- `solve_collision` in `src/physics/space.rs`: early return when both
bodies are static, otherwise compute impulses, correct positions, then queue
the impulses and the averaged friction impulses on both bodies. -/
def solve_collision (collision : Collision) (b1 b2 : Body) : Body × Body :=
  if b1.is_static && b2.is_static then (b1, b2)
  else
    let r := get_collision_impulses collision b1 b2
    let impulse1 := r.1.1
    let impulse2 := r.1.2
    let p := apply_collision_position_correction collision r.2.1 r.2.2
    let friction := (b1.bdef.friction + b2.bdef.friction) / 2
    let friction1 := impulse1.mul friction
    let friction2 := impulse2.mul friction
    ((p.1.apply_impulse impulse1).apply_friction friction1,
     (p.2.apply_impulse impulse2).apply_friction friction2)

/-- `Space` in `src/physics/space.rs`.  The collision callback mutates the
two bodies in Rust; here it is a function returning the updated pair. -/
structure Space where
  gravity : Vec2
  bodies : List Body
  collision_callback : Option (Collision → Body → Body → Body × Body)

/-- `Space::new`. -/
def Space.new (gravity : Vec2) : Space :=
  { gravity := gravity, bodies := [], collision_callback := none }

/-- One iteration of the inner collision loop of `Space::update`: test the
pair at indices `i`, `j` of the body list and, on contact, solve the
collision and run the callback, writing both bodies back. -/
def solve_pair (cb : Option (Collision → Body → Body → Body × Body))
    (l : List Body) (i j : ℕ) : List Body :=
  match l.get? i, l.get? j with
  | some b1, some b2 =>
    match check_body_collision b1 b2 with
    | some c =>
      let s := solve_collision c b1 b2
      let s' := match cb with
        | some f => f c s.1 s.2
        | none => s
      (l.set i s'.1).set j s'.2
    | none => l
  | _, _ => l

/-- `Space::update` in `src/physics/space.rs`: apply gravity to every
Dynamic body and integrate every body, then run the all-pairs collision
loop (`i` from `0` to `len - 2`, `j` from `i + 1` to `len - 1`). -/
def Space.update (s : Space) (dt : ℝ) : Space :=
  let bodies1 := s.bodies.map (fun b =>
    let b' := if b.bdef.body_type = BodyType.Dynamic then
        b.apply_force (s.gravity.mul b.mass)
      else b
    b'.update dt)
  let n := bodies1.length
  let bodies2 :=
    if n > 1 then
      (List.range (n - 1)).foldl
        (fun acc i =>
          (List.range (n - 1 - i)).foldl
            (fun acc2 k => solve_pair s.collision_callback acc2 i (i + 1 + k))
            acc)
        bodies1
    else bodies1
  { s with bodies := bodies2 }

/-- One externally driven operation on a `Body`: the three accumulator
pushes of `src/physics/body.rs` and an integration step. -/
inductive BodyOp where
  | force (v : Vec2)
  | impulse (v : Vec2)
  | friction (v : Vec2)
  | update (dt : ℝ)

/-- Run one `BodyOp` on a body. -/
def apply_op (b : Body) (op : BodyOp) : Body :=
  match op with
  | .force v => b.apply_force v
  | .impulse v => b.apply_impulse v
  | .friction v => b.apply_friction v
  | .update dt => b.update dt

/-- Run a sequence of `BodyOp`s from left to right. -/
def apply_ops (b : Body) (ops : List BodyOp) : Body :=
  ops.foldl apply_op b

/-- The deformation impulses computed inside `get_collision_impulses`
(`src/physics/space.rs` lines 120-139): the momentum changes, projected onto
the contact normal, needed to bring both bodies to the shared final
velocity, with a Static participant's momentum zeroed. -/
def deformation_impulses (collision : Collision) (b1 b2 : Body) : Vec2 × Vec2 :=
  let momentum1 := if b1.is_static then Vec2.new 0 0 else b1.momentum
  let momentum2 := if b2.is_static then Vec2.new 0 0 else b2.momentum
  let total_momentum :=
    if ¬b1.is_static ∧ ¬b2.is_static then b1.momentum + b2.momentum
    else Vec2.new 0 0
  let final_velocity := total_momentum.mul (1 / (b1.mass + b2.mass))
  ((final_velocity.mul b1.mass - momentum1).projection_onto collision.normal_a,
   (final_velocity.mul b2.mass - momentum2).projection_onto collision.normal_a)

/-- Modelled from the claim's words (C2), for comparison with the code: the
per-friction-impulse quantity said to be subtracted from the net force —
`f` projected onto the direction orthogonal to the body's momentum
(`required_impulse`), taken as a unit vector, scaled by
`min (|f| / dt) |required_impulse|`. -/
def claimed_friction_term (required_impulse f : Vec2) (dt : ℝ) : Vec2 :=
  (f.orthogonalise required_impulse).unit.mul
    (min ((f.mul (1 / dt)).norm) required_impulse.norm)

/-- Modelled from the claim's words (C4): line-line intersection where the
intersection must lie within BOTH segments — the parameter `s` on the second
line (the edge) is constrained to `[0,1]` as well.  The `s` formula is the
one commented out in `lines_intersect` in `src/physics/shape.rs`. -/
def segment_hit (p1 d1 p2 d2 : Vec2) : Option Vec2 :=
  let d := d2.x * d1.y - d1.x * d2.y
  if d = 0 then none
  else
    let t := (1 / d) * (-(-(p1.x - p2.x) * d2.y + (p1.y - p2.y) * d2.x))
    let s := (1 / d) * ((p1.x - p2.x) * d1.y - (p1.y - p2.y) * d1.x)
    if 0 ≤ t ∧ t ≤ 1 ∧ 0 ≤ s ∧ s ≤ 1 then some (p1 + d1.mul t) else none

/-- Modelled from the claim's words (C4), for comparison with the code:
intersect the ray against the four edges, each treated as a line segment,
and return the intersection point closest to the ray's origin by Euclidean
distance (`None` when no edge segment is hit). -/
def cast_ray_claimed (r : Rect) (pos origin dir : Vec2) : Option Vec2 :=
  ((r.borders pos).foldl
    (fun acc bd =>
      match segment_hit origin dir bd.1 bd.2 with
      | some v =>
        match acc with
        | some (n, _) => if (v - origin).norm < n then some ((v - origin).norm, v) else acc
        | none => some ((v - origin).norm, v)
      | none => acc)
    none).map Prod.snd

/-- Concrete body for C2: Dynamic, mass 1, velocity `(1, 0)`, one pending
friction impulse `(3, 4)`. -/
def c2_body : Body :=
  { Body.new (Rect.mk 0.5 0.5)
      { density := 1, body_type := BodyType.Dynamic,
        restitution := 0.5, friction := 0.6 } with
    vel := Vec2.new 1 0,
    applied_friction := [Vec2.new 3 4] }

/-- Concrete body A for the C1 witness: Dynamic, mass 1, restitution 1,
velocity `(2, 0)`. -/
def c1_bodyA : Body :=
  { Body.new (Rect.mk 0.5 0.5)
      { density := 1, body_type := BodyType.Dynamic,
        restitution := 1, friction := 0.6 } with
    vel := Vec2.new 2 0 }

/-- Concrete body B for the C1 witness: Dynamic, mass 1, restitution 1, at
rest. -/
def c1_bodyB : Body :=
  Body.new (Rect.mk 0.5 0.5)
    { density := 1, body_type := BodyType.Dynamic,
      restitution := 1, friction := 0.6 }

/-- Concrete collision record for the C1 witness. -/
def c1_coll : Collision :=
  { point_a := Vec2.new 0 0, point_b := Vec2.new 0 0,
    normal_a := Vec2.new 1 0, normal_b := Vec2.new (-1) 0 }

end Dio

namespace Dio

/-! ### Helper lemmas -/

theorem Vec2.new_eq (x y : ℝ) : Vec2.new x y = ⟨x, y⟩ := rfl

theorem Vec2.norm_mk (x y : ℝ) : (Vec2.mk x y).norm = Real.sqrt (x * x + y * y) := rfl

/-- Evaluate `Vec2.norm` when the squared norm is a known perfect square. -/
theorem Vec2.norm_eval (x y n : ℝ) (hn : 0 ≤ n) (h : x * x + y * y = n * n) :
    (Vec2.mk x y).norm = n := by
  rw [Vec2.norm_mk, h, ← Real.sqrt_mul_self hn]
  rw [Real.sqrt_mul_self hn, Real.sqrt_mul_self hn]

theorem Vec2.norm_zero_vec : (Vec2.new 0 0).norm = 0 := by
  rw [Vec2.new_eq, Vec2.norm_mk]
  norm_num

theorem Vec2.mul_mk (x y s : ℝ) : (Vec2.mk x y).mul s = ⟨x * s, y * s⟩ := rfl

/-- Scalar multiplication distributes over vector addition. -/
theorem Vec2.add_mul_right (a b : Vec2) (s : ℝ) :
    (a + b).mul s = a.mul s + b.mul s := by
  simp only [Vec2.add_def, Vec2.mul]
  ext <;> ring

theorem Vec2.zero_mul_vec (s : ℝ) : (Vec2.new 0 0).mul s = Vec2.new 0 0 := by
  simp only [Vec2.new, Vec2.mul]
  ext <;> ring

theorem Vec2.add_zero_vec (a : Vec2) : a + Vec2.new 0 0 = a := by
  simp only [Vec2.new, Vec2.add_def]
  ext <;> ring

theorem Vec2.zero_add_vec (a : Vec2) : Vec2.new 0 0 + a = a := by
  simp only [Vec2.new, Vec2.add_def]
  ext <;> ring

/-! ### C6: zero-vector guards in `unit` and `projection_onto` -/

/-- C6: `Vec2::unit` of the zero vector is exactly the zero vector, and
`Vec2::projection_onto` against the zero vector is exactly the zero vector,
so neither operation ever divides by zero (the real-valued embedding has no
`NaN`/`Inf` to produce). -/
theorem c6_zero_vector_guards :
    (Vec2.new 0 0).unit = Vec2.new 0 0 ∧
    ∀ v : Vec2, v.projection_onto (Vec2.new 0 0) = Vec2.new 0 0 := by
  constructor
  · rw [Vec2.unit, if_pos Vec2.norm_zero_vec]
  · intro v
    rw [Vec2.projection_onto, if_pos ⟨rfl, rfl⟩]

/-! ### C8: Static bodies never move -/

theorem static_update_fixed (b : Body) (dt : ℝ)
    (h : b.bdef.body_type = BodyType.Static) :
    (b.update dt).pos = b.pos ∧ (b.update dt).vel = b.vel ∧
      (b.update dt).bdef = b.bdef := by
  rw [Body.update]
  simp [h]

theorem apply_op_static_fixed (b : Body) (op : BodyOp)
    (h : b.bdef.body_type = BodyType.Static) :
    (apply_op b op).pos = b.pos ∧ (apply_op b op).vel = b.vel ∧
      (apply_op b op).bdef = b.bdef := by
  cases op with
  | force v => exact ⟨rfl, rfl, rfl⟩
  | impulse v => exact ⟨rfl, rfl, rfl⟩
  | friction v => exact ⟨rfl, rfl, rfl⟩
  | update dt => exact static_update_fixed b dt h

/-- C8: a `Static` body's position and velocity are unchanged by any
sequence of `apply_force`, `apply_impulse`, `apply_friction` and
`Body::update(dt)` calls, for every `dt`. -/
theorem c8_static_invariance (b : Body) (ops : List BodyOp)
    (h : b.bdef.body_type = BodyType.Static) :
    (apply_ops b ops).pos = b.pos ∧ (apply_ops b ops).vel = b.vel := by
  induction ops generalizing b with
  | nil => exact ⟨rfl, rfl⟩
  | cons op tl ih =>
    obtain ⟨hp, hv, hd⟩ := apply_op_static_fixed b op h
    have h' : (apply_op b op).bdef.body_type = BodyType.Static := by rw [hd, h]
    obtain ⟨ihp, ihv⟩ := ih (apply_op b op) h'
    exact ⟨by rw [apply_ops] at ihp ⊢; rw [List.foldl_cons, ihp, hp],
           by rw [apply_ops] at ihv ⊢; rw [List.foldl_cons, ihv, hv]⟩

/-- Witness for C8 at a concrete static body and a concrete operation
sequence mixing forces, impulses, friction and updates. -/
theorem c8_static_invariance_witness :
    (apply_ops (Body.new (Rect.mk 1 1) (BodyDef.new BodyType.Static))
        [BodyOp.force (Vec2.new 1 2), BodyOp.update 1,
         BodyOp.impulse (Vec2.new 3 4), BodyOp.friction (Vec2.new 5 6),
         BodyOp.update 0.5]).pos
      = (Body.new (Rect.mk 1 1) (BodyDef.new BodyType.Static)).pos ∧
    (apply_ops (Body.new (Rect.mk 1 1) (BodyDef.new BodyType.Static))
        [BodyOp.force (Vec2.new 1 2), BodyOp.update 1,
         BodyOp.impulse (Vec2.new 3 4), BodyOp.friction (Vec2.new 5 6),
         BodyOp.update 0.5]).vel
      = (Body.new (Rect.mk 1 1) (BodyDef.new BodyType.Static)).vel :=
  c8_static_invariance (Body.new (Rect.mk 1 1) (BodyDef.new BodyType.Static))
    [BodyOp.force (Vec2.new 1 2), BodyOp.update 1,
     BodyOp.impulse (Vec2.new 3 4), BodyOp.friction (Vec2.new 5 6),
     BodyOp.update 0.5] rfl

/-! ### C10: `solve_collision` ignores pairs with no Dynamic body -/

/-- C10: `Body::is_static` is true for every non-`Dynamic` body type, so
`solve_collision` returns immediately — both bodies unchanged, nothing
queued — for any pair in which neither body is `Dynamic` (including
Kinematic-Static and Kinematic-Kinematic pairs). -/
theorem c10_no_dynamic_no_op (c : Collision) (b1 b2 : Body)
    (h1 : b1.bdef.body_type ≠ BodyType.Dynamic)
    (h2 : b2.bdef.body_type ≠ BodyType.Dynamic) :
    b1.is_static = true ∧ b2.is_static = true ∧
      solve_collision c b1 b2 = (b1, b2) := by
  have hs1 : b1.is_static = true := by
    rw [Body.is_static, bne_iff_ne]; exact h1
  have hs2 : b2.is_static = true := by
    rw [Body.is_static, bne_iff_ne]; exact h2
  refine ⟨hs1, hs2, ?_⟩
  rw [solve_collision, hs1, hs2]
  norm_num

/-- Witness for C10 at a concrete Kinematic-Static pair. -/
theorem c10_no_dynamic_no_op_witness :
    (Body.new (Rect.mk 1 1) (BodyDef.new BodyType.Kinematic)).is_static = true ∧
    (Body.new (Rect.mk 2 2) (BodyDef.new BodyType.Static)).is_static = true ∧
    solve_collision
        { point_a := Vec2.new 0 0, point_b := Vec2.new 0 0,
          normal_a := Vec2.new 0 1, normal_b := Vec2.new 0 (-1) }
        (Body.new (Rect.mk 1 1) (BodyDef.new BodyType.Kinematic))
        (Body.new (Rect.mk 2 2) (BodyDef.new BodyType.Static))
      = (Body.new (Rect.mk 1 1) (BodyDef.new BodyType.Kinematic),
         Body.new (Rect.mk 2 2) (BodyDef.new BodyType.Static)) :=
  c10_no_dynamic_no_op _ _ _ (by intro h; cases h) (by intro h; cases h)

/-! ### C7: rectangle-rectangle collision test and contact point -/

/-- C7: `Rect::collides_with` returns `None` exactly when the two bounding
boxes do not overlap on both axes (inclusively), and any returned collision
has both contact points equal to the centre of the overlap rectangle. -/
theorem c7_collides_with_overlap (r1 r2 : Rect) (p1 p2 : Vec2) :
    (r1.collides_with p1 r2 p2 = none ↔
      ¬((p1.x - r1.hw ≤ p2.x + r2.hw ∧ p2.x - r2.hw ≤ p1.x + r1.hw) ∧
        (p1.y - r1.hh ≤ p2.y + r2.hh ∧ p2.y - r2.hh ≤ p1.y + r1.hh))) ∧
    ∀ c, r1.collides_with p1 r2 p2 = some c →
      c.point_a = Vec2.new
          ((max (p1.x - r1.hw) (p2.x - r2.hw) + min (p1.x + r1.hw) (p2.x + r2.hw)) / 2)
          ((max (p1.y - r1.hh) (p2.y - r2.hh) + min (p1.y + r1.hh) (p2.y + r2.hh)) / 2) ∧
      c.point_b = c.point_a := by
  rw [Rect.collides_with]
  simp only [Rect.bounds]
  by_cases hcol : ¬(p1.y + r1.hh < p2.y - r2.hh ∨ p1.y - r1.hh > p2.y + r2.hh ∨
      p1.x - r1.hw > p2.x + r2.hw ∨ p1.x + r1.hw < p2.x - r2.hw)
  · rw [if_pos hcol]
    push_neg at hcol
    obtain ⟨h1, h2, h3, h4⟩ := hcol
    refine ⟨?_, ?_⟩
    · constructor
      · intro h
        exact absurd h (by simp)
      · intro hno
        exact absurd ⟨⟨h3, h4⟩, h2, h1⟩ hno
    · intro c hc
      injection hc with hc
      subst hc
      exact ⟨rfl, rfl⟩
  · rw [if_neg hcol]
    push_neg at hcol
    refine ⟨?_, ?_⟩
    · constructor
      · intro _ hov
        obtain ⟨⟨hx1, hx2⟩, hy1, hy2⟩ := hov
        rcases hcol with h | h | h | h <;> linarith
      · intro _
        rfl
    · intro c hc
      cases hc

/-- Witness for C7 at two concrete overlapping unit squares. -/
theorem c7_collides_with_overlap_witness :
    (Collision.point_a
        { point_a := Vec2.new (1/2) 0, point_b := Vec2.new (1/2) 0,
          normal_a := Vec2.new (-1) 0, normal_b := (Vec2.new (-1) 0).mul (-1) }
      = Vec2.new
          ((max ((Vec2.new 0 0).x - (Rect.mk 1 1).hw) ((Vec2.new 1 0).x - (Rect.mk 1 1).hw)
            + min ((Vec2.new 0 0).x + (Rect.mk 1 1).hw) ((Vec2.new 1 0).x + (Rect.mk 1 1).hw)) / 2)
          ((max ((Vec2.new 0 0).y - (Rect.mk 1 1).hh) ((Vec2.new 1 0).y - (Rect.mk 1 1).hh)
            + min ((Vec2.new 0 0).y + (Rect.mk 1 1).hh) ((Vec2.new 1 0).y + (Rect.mk 1 1).hh)) / 2)) ∧
    Collision.point_b
        { point_a := Vec2.new (1/2) 0, point_b := Vec2.new (1/2) 0,
          normal_a := Vec2.new (-1) 0, normal_b := (Vec2.new (-1) 0).mul (-1) }
      = Collision.point_a
        { point_a := Vec2.new (1/2) 0, point_b := Vec2.new (1/2) 0,
          normal_a := Vec2.new (-1) 0, normal_b := (Vec2.new (-1) 0).mul (-1) } :=
  (c7_collides_with_overlap (Rect.mk 1 1) (Rect.mk 1 1) (Vec2.new 0 0) (Vec2.new 1 0)).2
    { point_a := Vec2.new (1/2) 0, point_b := Vec2.new (1/2) 0,
      normal_a := Vec2.new (-1) 0, normal_b := (Vec2.new (-1) 0).mul (-1) }
    (by
      rw [Rect.collides_with]
      simp only [Rect.bounds, Vec2.new]
      norm_num [max_def, min_def])

/-! ### C9: free-fall scenario -/

/-- C9: a single Dynamic rectangle body of mass 10 at the origin with zero
velocity, in a space with gravity `(0, 9.81)` and no other bodies, has
velocity `(0, 9.81)` and position `(0, 9.81)` after one `Space::update(1.0)`. -/
theorem c9_free_fall :
    ((Space.update
        { gravity := Vec2.new 0 9.81,
          bodies := [Body.new (Rect.mk 0.5 0.5)
            { density := 10, body_type := BodyType.Dynamic,
              restitution := 0.5, friction := 0.6 }],
          collision_callback := none } 1).bodies.map Body.vel
      = [Vec2.new 0 9.81]) ∧
    ((Space.update
        { gravity := Vec2.new 0 9.81,
          bodies := [Body.new (Rect.mk 0.5 0.5)
            { density := 10, body_type := BodyType.Dynamic,
              restitution := 0.5, friction := 0.6 }],
          collision_callback := none } 1).bodies.map Body.pos
      = [Vec2.new 0 9.81]) := by
  rw [Space.update]
  simp only [Body.new, Body.update, Body.apply_force, Body.current_net_force,
    Body.mass, Rect.mass, Body.momentum, List.map, List.foldl, List.length,
    Vec2.new, Vec2.mul, Vec2.add_def]
  norm_num
  simp

/-! ### C5: effective restitution and the inelastic floor -/

/-- C5: `get_collision_impulses` uses effective restitution
`(b1.restitution + b2.restitution) / 2` when the relative speed is at least
`VELOCITY_THRESHOLD`, and `0` when it is strictly below — in which case the
returned impulses are the deformation impulses alone. -/
theorem c5_restitution_threshold (c : Collision) (b1 b2 : Body) :
    ((b1.vel - b2.vel).norm < VELOCITY_THRESHOLD →
      (get_collision_impulses c b1 b2).1 = deformation_impulses c b1 b2) ∧
    (VELOCITY_THRESHOLD ≤ (b1.vel - b2.vel).norm →
      (get_collision_impulses c b1 b2).1 =
        ((deformation_impulses c b1 b2).1 +
          (deformation_impulses c b1 b2).1.mul ((b1.restitution + b2.restitution) / 2),
         (deformation_impulses c b1 b2).2 +
          (deformation_impulses c b1 b2).2.mul ((b1.restitution + b2.restitution) / 2))) := by
  constructor
  · intro h
    simp only [get_collision_impulses, deformation_impulses]
    rw [if_pos h, Prod.mk.injEq]
    constructor <;> (ext <;> simp [Vec2.mul, Vec2.add_def, Vec2.new])
  · intro h
    simp only [get_collision_impulses, deformation_impulses]
    rw [if_neg (not_lt.mpr h)]

/-- Witness for C5 at a concrete slow contact (relative speed 1/2, below the
threshold 1): the impulses are the deformation impulses alone. -/
theorem c5_restitution_threshold_witness :
    (get_collision_impulses
        { point_a := Vec2.new 0 0, point_b := Vec2.new 0 0,
          normal_a := Vec2.new 0 1, normal_b := Vec2.new 0 (-1) }
        { Body.new (Rect.mk 0.5 0.5) (BodyDef.new BodyType.Dynamic) with
            vel := Vec2.new (1/2) 0 }
        (Body.new (Rect.mk 0.5 0.5) (BodyDef.new BodyType.Dynamic))).1
      = deformation_impulses
        { point_a := Vec2.new 0 0, point_b := Vec2.new 0 0,
          normal_a := Vec2.new 0 1, normal_b := Vec2.new 0 (-1) }
        { Body.new (Rect.mk 0.5 0.5) (BodyDef.new BodyType.Dynamic) with
            vel := Vec2.new (1/2) 0 }
        (Body.new (Rect.mk 0.5 0.5) (BodyDef.new BodyType.Dynamic)) :=
  (c5_restitution_threshold _ _ _).1 (by
    show (Vec2.new (1/2) 0 - (Body.new (Rect.mk 0.5 0.5) (BodyDef.new BodyType.Dynamic)).vel).norm
        < VELOCITY_THRESHOLD
    rw [show Vec2.new (1/2) 0 - (Body.new (Rect.mk 0.5 0.5) (BodyDef.new BodyType.Dynamic)).vel
          = Vec2.mk (1/2) 0 by ext <;> simp [Body.new, Vec2.new, Vec2.sub_def]]
    rw [Vec2.norm_eval (1/2) 0 (1/2) (by norm_num) (by norm_num)]
    rw [VELOCITY_THRESHOLD]
    norm_num)

/-! ### C1: momentum conservation for two Dynamic bodies -/

/-- The two deformation impulses always cancel: the sum of the projections
of the two momentum changes toward the shared final velocity is the zero
vector (requires the combined mass to be nonzero, as division by the mass
sum occurs in the code). -/
theorem proj_add_cancel (a b n : Vec2) (h : a.dot n + b.dot n = 0) :
    a.projection_onto n + b.projection_onto n = Vec2.new 0 0 := by
  by_cases hn : n.x = 0 ∧ n.y = 0
  · rw [Vec2.projection_onto, if_pos hn, Vec2.projection_onto, if_pos hn]
    exact Vec2.add_zero_vec _
  · rw [Vec2.projection_onto, if_neg hn, Vec2.projection_onto, if_neg hn]
    have hb : b.dot n = -(a.dot n) := by linarith
    rw [hb]
    ext <;> (simp only [Vec2.add_def, Vec2.mul, Vec2.new]; ring)

theorem deformation_sum_eq_zero (p1v p2v n : Vec2) (m1 m2 : ℝ)
    (hm : m1 + m2 ≠ 0) :
    (((p1v + p2v).mul (m1 + m2)⁻¹).mul m1 - p1v).projection_onto n
      + (((p1v + p2v).mul (m1 + m2)⁻¹).mul m2 - p2v).projection_onto n
      = Vec2.new 0 0 := by
  apply proj_add_cancel
  simp only [Vec2.dot, Vec2.mul, Vec2.sub_def, Vec2.add_def]
  field_simp
  ring

/-- If a pair of impulses sums to zero, so does the pair after adding the
restitution-scaled restoration parts. -/
theorem impulse_pair_sum (d1 d2 : Vec2) (e : ℝ)
    (hd : d1 + d2 = Vec2.new 0 0) :
    (d1 + d1.mul e) + (d2 + d2.mul e) = Vec2.new 0 0 := by
  have hdx : d1.x + d2.x = 0 := congrArg Vec2.x hd
  have hdy : d1.y + d2.y = 0 := congrArg Vec2.y hd
  ext
  · show d1.x + d1.x * e + (d2.x + d2.x * e) = 0
    linear_combination (1 + e) * hdx
  · show d1.y + d1.y * e + (d2.y + d2.y * e) = 0
    linear_combination (1 + e) * hdy

/-- Adding a zero-sum impulse pair to two momenta preserves their total. -/
theorem momentum_transfer (p1 p2 i1 i2 : Vec2)
    (h : i1 + i2 = Vec2.new 0 0) :
    (p1 + i1) + (p2 + i2) = p1 + p2 := by
  have hx : i1.x + i2.x = 0 := congrArg Vec2.x h
  have hy : i1.y + i2.y = 0 := congrArg Vec2.y h
  ext
  · show p1.x + i1.x + (p2.x + i2.x) = p1.x + p2.x
    linarith
  · show p1.y + i1.y + (p2.y + i2.y) = p1.y + p2.y
    linarith

/-- C1: for two Dynamic bodies with restitution 1 and relative speed at or
above the velocity threshold (and nonzero combined mass), the impulse pair
returned by `get_collision_impulses` sums to the zero vector, so the total
momentum after applying both queued impulses equals the total before. -/
theorem c1_momentum_conservation (c : Collision) (b1 b2 : Body)
    (h1 : b1.bdef.body_type = BodyType.Dynamic)
    (h2 : b2.bdef.body_type = BodyType.Dynamic)
    (hr1 : b1.restitution = 1) (hr2 : b2.restitution = 1)
    (hm : b1.mass + b2.mass ≠ 0)
    (hv : VELOCITY_THRESHOLD ≤ (b1.vel - b2.vel).norm) :
    (get_collision_impulses c b1 b2).1.1 + (get_collision_impulses c b1 b2).1.2
        = Vec2.new 0 0 ∧
    (b1.momentum + (get_collision_impulses c b1 b2).1.1)
        + (b2.momentum + (get_collision_impulses c b1 b2).1.2)
      = b1.momentum + b2.momentum := by
  have hs1 : b1.is_static = false := by simp [Body.is_static, h1]
  have hs2 : b2.is_static = false := by simp [Body.is_static, h2]
  have hsum : (get_collision_impulses c b1 b2).1.1
      + (get_collision_impulses c b1 b2).1.2 = Vec2.new 0 0 := by
    simp only [get_collision_impulses, hs1, hs2]
    norm_num
    exact impulse_pair_sum _ _ _
      (deformation_sum_eq_zero b1.momentum b2.momentum c.normal_a b1.mass b2.mass hm)
  exact ⟨hsum, momentum_transfer _ _ _ _ hsum⟩

/-- Witness for C1 at a concrete elastic head-on pair: two Dynamic unit-mass
squares with restitution 1, relative speed 2. -/
theorem c1_momentum_conservation_witness :
    (get_collision_impulses c1_coll c1_bodyA c1_bodyB).1.1
        + (get_collision_impulses c1_coll c1_bodyA c1_bodyB).1.2 = Vec2.new 0 0 ∧
    (c1_bodyA.momentum + (get_collision_impulses c1_coll c1_bodyA c1_bodyB).1.1)
        + (c1_bodyB.momentum + (get_collision_impulses c1_coll c1_bodyA c1_bodyB).1.2)
      = c1_bodyA.momentum + c1_bodyB.momentum :=
  c1_momentum_conservation c1_coll c1_bodyA c1_bodyB rfl rfl rfl rfl
    (by norm_num [Body.mass, Rect.mass, c1_bodyA, c1_bodyB, Body.new])
    (by
      have hsub : c1_bodyA.vel - c1_bodyB.vel = Vec2.mk 2 0 := by
        ext <;> simp [c1_bodyA, c1_bodyB, Body.new, Vec2.new, Vec2.sub_def]
      rw [hsub, Vec2.norm_eval 2 0 2 (by norm_num) (by norm_num), VELOCITY_THRESHOLD]
      norm_num)

/-! ### C2: the friction correction inside `Body::update` -/

theorem Vec2.sub_zero_vec (a : Vec2) : a - Vec2.new 0 0 = a := by
  ext <;> simp [Vec2.sub_def, Vec2.new]

theorem Vec2.sub_sub_eq (a b c : Vec2) : a - b - c = a - (b + c) := by
  ext <;> (simp only [Vec2.sub_def, Vec2.add_def]; ring)

/-- The velocity produced by `Body::update` for a Dynamic body, with the
friction loop left as a fold. -/
theorem update_vel_dynamic (b : Body) (dt : ℝ)
    (h : b.bdef.body_type = BodyType.Dynamic) :
    (b.update dt).vel = b.vel +
      ((b.applied_friction.foldl (Body.friction_step b.momentum dt)
          (b.current_net_force dt)).mul (1 / b.mass)).mul dt := by
  rw [Body.update]
  simp [h]

/-- The friction loop subtracts, for each pending friction impulse, the unit
vector of the momentum orthogonalised against that impulse, scaled by the
clamped magnitude; the fold equals the initial force minus the sum of these
terms. -/
theorem friction_fold_sum (ri : Vec2) (dt : ℝ) (l : List Vec2) (init : Vec2) :
    l.foldl (Body.friction_step ri dt) init
      = init - (l.map (fun f => (ri.orthogonalise f).unit.mul
          (min ((f.mul (1 / dt)).norm) ri.norm))).foldr
            (fun a b' => a + b') (Vec2.new 0 0) := by
  induction l generalizing init with
  | nil => simp [Vec2.sub_zero_vec]
  | cons hd tl ih =>
    rw [List.foldl_cons, ih, List.map_cons, List.foldr_cons]
    rw [show Body.friction_step ri dt init hd
        = init - (ri.orthogonalise hd).unit.mul
            (min ((hd.mul (1 / dt)).norm) ri.norm) from rfl]
    rw [Vec2.sub_sub_eq]

/-- C2 (amended): in `Body::update(dt)` for a Dynamic body, the quantity
subtracted from the net force for each pending friction impulse `f` is the
unit vector of the body's momentum orthogonalised against `f` (not of `f`
orthogonalised against the momentum), scaled by
`min (|f| / dt) |momentum|`. -/
theorem c2_friction_code_formula (b : Body) (dt : ℝ)
    (h : b.bdef.body_type = BodyType.Dynamic) :
    (b.update dt).vel = b.vel +
      ((b.current_net_force dt
        - (b.applied_friction.map (fun f =>
            (b.momentum.orthogonalise f).unit.mul
              (min ((f.mul (1 / dt)).norm) b.momentum.norm))).foldr
            (fun a b' => a + b') (Vec2.new 0 0)).mul (1 / b.mass)).mul dt := by
  rw [update_vel_dynamic b dt h, friction_fold_sum]

/-- Witness for the amended C2 at the concrete body `c2_body`. -/
theorem c2_friction_code_formula_witness :
    (c2_body.update 1).vel = c2_body.vel +
      ((c2_body.current_net_force 1
        - (c2_body.applied_friction.map (fun f =>
            (c2_body.momentum.orthogonalise f).unit.mul
              (min ((f.mul (1 / 1)).norm) c2_body.momentum.norm))).foldr
            (fun a b' => a + b') (Vec2.new 0 0)).mul (1 / c2_body.mass)).mul 1 :=
  c2_friction_code_formula c2_body 1 rfl

/-- Counterexample to C2 as stated: at `c2_body` with `dt = 1`, the update
produces velocity `(1/5, 3/5)`, while subtracting the claim's quantity (the
unit vector of `f` projected orthogonally to the momentum) would produce
`(1, -1)`. -/
theorem c2_counterexample :
    (c2_body.update 1).vel = Vec2.new (1/5) (3/5) ∧
    c2_body.vel + ((c2_body.current_net_force 1
        - claimed_friction_term c2_body.momentum (Vec2.new 3 4) 1).mul
          (1 / c2_body.mass)).mul 1 = Vec2.new 1 (-1) ∧
    Vec2.new (1/5) (3/5) ≠ Vec2.new 1 (-1) := by
  have hmass : c2_body.mass = 1 := by
    norm_num [c2_body, Body.new, Body.mass, Rect.mass]
  have hmom : c2_body.momentum = Vec2.new 1 0 := by
    rw [Body.momentum, hmass]
    ext <;> norm_num [c2_body, Body.new, Vec2.mul, Vec2.new]
  have hcnf : c2_body.current_net_force 1 = Vec2.new 0 0 := by
    rw [Body.current_net_force]
    simp [c2_body, Body.new]
  refine ⟨?_, ?_, ?_⟩
  · rw [update_vel_dynamic c2_body 1 rfl]
    rw [show c2_body.applied_friction = [Vec2.new 3 4] from rfl]
    rw [hmom, hcnf, hmass]
    rw [show List.foldl (Body.friction_step (Vec2.new 1 0) 1) (Vec2.new 0 0) [Vec2.new 3 4]
        = Body.friction_step (Vec2.new 1 0) 1 (Vec2.new 0 0) (Vec2.new 3 4) from rfl]
    simp only [Body.friction_step]
    have horth : (Vec2.new 1 0).orthogonalise (Vec2.new 3 4)
        = Vec2.new (16/25) (-12/25) := by
      rw [Vec2.orthogonalise, Vec2.projection_onto,
        if_neg (by norm_num [Vec2.new])]
      ext <;> norm_num [Vec2.dot, Vec2.mul, Vec2.sub_def, Vec2.new]
    have hnorm1 : (Vec2.new (16/25) (-12/25)).norm = 4/5 :=
      Vec2.norm_eval _ _ _ (by norm_num) (by norm_num)
    have hunit : (Vec2.new (16/25) (-12/25)).unit = Vec2.new (4/5) (-3/5) := by
      rw [Vec2.unit, hnorm1, if_neg (by norm_num)]
      ext <;> norm_num [Vec2.mul, Vec2.new]
    have hn34 : ((Vec2.new 3 4).mul (1/1)).norm = 5 := by
      rw [show (Vec2.new 3 4).mul (1/1) = Vec2.mk 3 4 by
        ext <;> norm_num [Vec2.mul, Vec2.new]]
      exact Vec2.norm_eval _ _ _ (by norm_num) (by norm_num)
    have hn10 : (Vec2.new 1 0).norm = 1 :=
      Vec2.norm_eval _ _ _ (by norm_num) (by norm_num)
    rw [horth, hunit, hn34, hn10]
    rw [show c2_body.vel = Vec2.new 1 0 from rfl]
    ext <;> norm_num [Vec2.mul, Vec2.sub_def, Vec2.add_def, Vec2.new, min_def]
  · rw [hmom, hcnf, hmass, claimed_friction_term]
    have horth2 : (Vec2.new 3 4).orthogonalise (Vec2.new 1 0) = Vec2.new 0 4 := by
      rw [Vec2.orthogonalise, Vec2.projection_onto,
        if_neg (by norm_num [Vec2.new])]
      ext <;> norm_num [Vec2.dot, Vec2.mul, Vec2.sub_def, Vec2.new]
    have hnorm04 : (Vec2.new 0 4).norm = 4 :=
      Vec2.norm_eval _ _ _ (by norm_num) (by norm_num)
    have hunit2 : (Vec2.new 0 4).unit = Vec2.new 0 1 := by
      rw [Vec2.unit, hnorm04, if_neg (by norm_num)]
      ext <;> norm_num [Vec2.mul, Vec2.new]
    have hn34b : ((Vec2.new 3 4).mul (1/1)).norm = 5 := by
      rw [show (Vec2.new 3 4).mul (1/1) = Vec2.mk 3 4 by
        ext <;> norm_num [Vec2.mul, Vec2.new]]
      exact Vec2.norm_eval _ _ _ (by norm_num) (by norm_num)
    have hn10b : (Vec2.new 1 0).norm = 1 :=
      Vec2.norm_eval _ _ _ (by norm_num) (by norm_num)
    rw [horth2, hunit2, hn34b, hn10b]
    rw [show c2_body.vel = Vec2.new 1 0 from rfl]
    ext <;> norm_num [Vec2.mul, Vec2.sub_def, Vec2.add_def, Vec2.new, min_def]
  · intro h
    have hx : (1:ℝ)/5 = 1 := congrArg Vec2.x h
    norm_num at hx

/-! ### C3: direction of the collision normals -/

/-- C3 (amended): every collision returned by `Rect::collides_with` has a
unit `normal_a` with `normal_b = -normal_a`, and `normal_a` points along the
dominant overlap axis from the contact point toward body A's centre (so it
pushes A away from the contact, in particular away from body B), not from
A's interior toward B. -/
theorem c3_normal_orientation (r1 r2 : Rect) (p1 p2 : Vec2) (c : Collision)
    (h : r1.collides_with p1 r2 p2 = some c) :
    c.normal_a.norm = 1 ∧ c.normal_b = c.normal_a.mul (-1) ∧
      0 ≤ c.normal_a.dot (p1 - c.point_a) := by
  rw [Rect.collides_with] at h
  simp only [Rect.bounds] at h
  by_cases hcol : ¬(p1.y + r1.hh < p2.y - r2.hh ∨ p1.y - r1.hh > p2.y + r2.hh ∨
      p1.x - r1.hw > p2.x + r2.hw ∨ p1.x + r1.hw < p2.x - r2.hw)
  · rw [if_pos hcol] at h
    injection h with h
    subst h
    split_ifs with hwide hy hx
    · refine ⟨Vec2.norm_eval _ _ 1 (by norm_num) (by norm_num), rfl, ?_⟩
      simp only [Vec2.new] at hy
      simp only [Vec2.dot, Vec2.sub_def, Vec2.new]
      nlinarith [hy]
    · refine ⟨Vec2.norm_eval _ _ 1 (by norm_num) (by norm_num), rfl, ?_⟩
      simp only [Vec2.new] at hy
      push_neg at hy
      simp only [Vec2.dot, Vec2.sub_def, Vec2.new]
      nlinarith [hy]
    · refine ⟨Vec2.norm_eval _ _ 1 (by norm_num) (by norm_num), rfl, ?_⟩
      simp only [Vec2.new] at hx
      simp only [Vec2.dot, Vec2.sub_def, Vec2.new]
      nlinarith [hx]
    · refine ⟨Vec2.norm_eval _ _ 1 (by norm_num) (by norm_num), rfl, ?_⟩
      simp only [Vec2.new] at hx
      push_neg at hx
      simp only [Vec2.dot, Vec2.sub_def, Vec2.new]
      nlinarith [hx]
  · rw [if_neg hcol] at h
    cases h

/-- Witness for the amended C3: two concrete overlapping squares (A above B
in screen coordinates) and the collision the code returns for them. -/
theorem c3_normal_orientation_witness :
    (Collision.normal_a
        { point_a := Vec2.new 0 (-0.75), point_b := Vec2.new 0 (-0.75),
          normal_a := Vec2.new 0 1, normal_b := (Vec2.new 0 1).mul (-1) }).norm = 1 ∧
    Collision.normal_b
        { point_a := Vec2.new 0 (-0.75), point_b := Vec2.new 0 (-0.75),
          normal_a := Vec2.new 0 1, normal_b := (Vec2.new 0 1).mul (-1) }
      = (Collision.normal_a
        { point_a := Vec2.new 0 (-0.75), point_b := Vec2.new 0 (-0.75),
          normal_a := Vec2.new 0 1, normal_b := (Vec2.new 0 1).mul (-1) }).mul (-1) ∧
    0 ≤ (Collision.normal_a
        { point_a := Vec2.new 0 (-0.75), point_b := Vec2.new 0 (-0.75),
          normal_a := Vec2.new 0 1, normal_b := (Vec2.new 0 1).mul (-1) }).dot
          (Vec2.new 0 0 - Collision.point_a
            { point_a := Vec2.new 0 (-0.75), point_b := Vec2.new 0 (-0.75),
              normal_a := Vec2.new 0 1, normal_b := (Vec2.new 0 1).mul (-1) }) :=
  c3_normal_orientation (Rect.mk 1 1) (Rect.mk 1 1) (Vec2.new 0 0)
    (Vec2.new 0 (-1.5))
    { point_a := Vec2.new 0 (-0.75), point_b := Vec2.new 0 (-0.75),
      normal_a := Vec2.new 0 1, normal_b := (Vec2.new 0 1).mul (-1) }
    (by
      rw [Rect.collides_with]
      simp only [Rect.bounds, Vec2.new]
      norm_num [max_def, min_def])

/-- Counterexample to C3 as stated: for square A at the origin and square B
centred at `(0, -1.5)`, the code returns `normal_a = (0, 1)`, whose dot
product with the direction from A to B is negative — the normal points away
from body B, not from A's interior toward B. -/
theorem c3_counterexample :
    (Rect.mk 1 1).collides_with (Vec2.new 0 0) (Rect.mk 1 1) (Vec2.new 0 (-1.5))
      = some { point_a := Vec2.new 0 (-0.75), point_b := Vec2.new 0 (-0.75),
               normal_a := Vec2.new 0 1, normal_b := (Vec2.new 0 1).mul (-1) } ∧
    (Vec2.new 0 1).dot (Vec2.new 0 (-1.5) - Vec2.new 0 0) < 0 := by
  constructor
  · rw [Rect.collides_with]
    simp only [Rect.bounds, Vec2.new]
    norm_num [max_def, min_def]
  · norm_num [Vec2.dot, Vec2.sub_def, Vec2.new]

/-! ### C4: what `Rect::cast_ray` actually returns -/

theorem cast_ray_step_none (acc : ℝ × Option Vec2) :
    Rect.cast_ray_step acc none = acc := rfl

theorem cast_ray_step_take (acc : ℝ × Option Vec2) (v : Vec2)
    (h : v.norm < acc.1) :
    Rect.cast_ray_step acc (some v) = (v.norm, some v) := by
  simp [Rect.cast_ray_step, h]

theorem cast_ray_step_keep (acc : ℝ × Option Vec2) (v : Vec2)
    (h : ¬ v.norm < acc.1) :
    Rect.cast_ray_step acc (some v) = acc := by
  simp [Rect.cast_ray_step, h]

/-- The accumulator loop of `cast_ray` keeps the candidate of strictly
smallest norm: either nothing beat the initial bound, or the result is a
candidate whose norm is minimal among all candidates. -/
theorem cast_fold_min (opts : List (Option Vec2)) (acc : ℝ × Option Vec2) :
    (opts.foldl Rect.cast_ray_step acc = acc ∧
       ∀ v ∈ opts, ∀ u, v = some u → acc.1 ≤ u.norm)
    ∨ (∃ w, some w ∈ opts ∧
        opts.foldl Rect.cast_ray_step acc = (w.norm, some w) ∧
        w.norm < acc.1 ∧
        ∀ v ∈ opts, ∀ u, v = some u → w.norm ≤ u.norm) := by
  induction opts generalizing acc with
  | nil =>
    left
    exact ⟨rfl, by simp⟩
  | cons hd tl ih =>
    rw [List.foldl_cons]
    cases hd with
    | none =>
      rw [cast_ray_step_none]
      rcases ih acc with ⟨heq, hall⟩ | ⟨w, hmem, heq, hlt, hall⟩
      · left
        refine ⟨heq, ?_⟩
        intro v hv u hu
        rcases List.mem_cons.mp hv with rfl | hv'
        · cases hu
        · exact hall v hv' u hu
      · right
        refine ⟨w, List.mem_cons_of_mem _ hmem, heq, hlt, ?_⟩
        intro v hv u hu
        rcases List.mem_cons.mp hv with rfl | hv'
        · cases hu
        · exact hall v hv' u hu
    | some w0 =>
      by_cases hlt0 : w0.norm < acc.1
      · rw [cast_ray_step_take acc w0 hlt0]
        rcases ih (w0.norm, some w0) with ⟨heq, hall⟩ | ⟨w, hmem, heq, hlt, hall⟩
        · right
          refine ⟨w0, List.mem_cons_self _ _, heq, hlt0, ?_⟩
          intro v hv u hu
          rcases List.mem_cons.mp hv with rfl | hv'
          · injection hu with hu
            subst hu
            exact le_refl _
          · exact hall v hv' u hu
        · right
          refine ⟨w, List.mem_cons_of_mem _ hmem, heq, lt_trans hlt hlt0, ?_⟩
          intro v hv u hu
          rcases List.mem_cons.mp hv with rfl | hv'
          · injection hu with hu
            subst hu
            exact le_of_lt hlt
          · exact hall v hv' u hu
      · rw [cast_ray_step_keep acc w0 hlt0]
        rcases ih acc with ⟨heq, hall⟩ | ⟨w, hmem, heq, hlt, hall⟩
        · left
          refine ⟨heq, ?_⟩
          intro v hv u hu
          rcases List.mem_cons.mp hv with rfl | hv'
          · injection hu with hu
            subst hu
            exact not_lt.mp hlt0
          · exact hall v hv' u hu
        · right
          refine ⟨w, List.mem_cons_of_mem _ hmem, heq, hlt, ?_⟩
          intro v hv u hu
          rcases List.mem_cons.mp hv with rfl | hv'
          · injection hu with hu
            subst hu
            exact le_trans (le_of_lt hlt) (not_lt.mp hlt0)
          · exact hall v hv' u hu

/-- C4 (amended): `Rect::cast_ray` intersects the ray (`t ∈ [0,1]`) against
the four infinite lines supporting the rectangle's edges (the edge-segment
parameter is never constrained), and returns the candidate intersection of
smallest Euclidean norm — distance from the world origin `(0,0)`, not from
the ray's origin; `None` when no supporting line yields a candidate below
the initial `f64::MAX` bound. -/
theorem c4_cast_ray_closest (r : Rect) (pos origin dir : Vec2) :
    (∀ p, r.cast_ray pos origin dir = some p →
      ((∃ bd ∈ r.borders pos, lines_intersect origin dir bd.1 bd.2 = some p)
        ∧ p.norm < f64MAX
        ∧ ∀ bd ∈ r.borders pos, ∀ q,
            lines_intersect origin dir bd.1 bd.2 = some q → p.norm ≤ q.norm))
    ∧ (r.cast_ray pos origin dir = none →
        ∀ bd ∈ r.borders pos, ∀ q,
          lines_intersect origin dir bd.1 bd.2 = some q → f64MAX ≤ q.norm) := by
  have hmain := cast_fold_min ((r.borders pos).map
      (fun bd => lines_intersect origin dir bd.1 bd.2)) (f64MAX, none)
  rw [List.foldl_map] at hmain
  have hdef : r.cast_ray pos origin dir = ((r.borders pos).foldl
      (fun acc bd => Rect.cast_ray_step acc (lines_intersect origin dir bd.1 bd.2))
      (f64MAX, none)).2 := rfl
  constructor
  · intro p hp
    rcases hmain with ⟨heq, hall⟩ | ⟨w, hmem, heq, hlt, hall⟩
    · rw [hdef, heq] at hp
      cases hp
    · rw [hdef, heq] at hp
      injection hp with hp
      subst hp
      obtain ⟨bd, hbd, hfbd⟩ := List.mem_map.mp hmem
      refine ⟨⟨bd, hbd, hfbd⟩, hlt, ?_⟩
      intro bd' hbd' q hq
      exact hall _ (List.mem_map_of_mem _ hbd') q hq
  · intro hp bd hbd q hq
    rcases hmain with ⟨heq, hall⟩ | ⟨w, hmem, heq, hlt, hall⟩
    · exact hall _ (List.mem_map_of_mem _ hbd) q hq
    · rw [hdef, heq] at hp
      cases hp

theorem c4_li1 : lines_intersect (Vec2.new 12 5) (Vec2.new (-10) 0)
    (Vec2.new 9 (-1)) (Vec2.new 0 2) = some (Vec2.new 9 5) := by
  simp only [lines_intersect, Vec2.new]
  norm_num [Vec2.mul, Vec2.add_def]

theorem c4_li2 : lines_intersect (Vec2.new 12 5) (Vec2.new (-10) 0)
    (Vec2.new 9 1) (Vec2.new 2 0) = none := by
  simp only [lines_intersect, Vec2.new]
  norm_num

theorem c4_li3 : lines_intersect (Vec2.new 12 5) (Vec2.new (-10) 0)
    (Vec2.new 11 (-1)) (Vec2.new 0 2) = some (Vec2.new 11 5) := by
  simp only [lines_intersect, Vec2.new]
  norm_num [Vec2.mul, Vec2.add_def]

theorem c4_li4 : lines_intersect (Vec2.new 12 5) (Vec2.new (-10) 0)
    (Vec2.new 9 (-1)) (Vec2.new 2 0) = none := by
  simp only [lines_intersect, Vec2.new]
  norm_num

theorem c4_norm95 : (Vec2.new 9 5).norm = Real.sqrt 106 := by
  rw [Vec2.new_eq, Vec2.norm_mk]
  norm_num

theorem c4_norm115 : (Vec2.new 11 5).norm = Real.sqrt 146 := by
  rw [Vec2.new_eq, Vec2.norm_mk]
  norm_num

theorem c4_norm95_lt_max : (Vec2.new 9 5).norm < f64MAX := by
  rw [c4_norm95]
  have h11 : Real.sqrt 106 < 11 := (Real.sqrt_lt' (by norm_num)).mpr (by norm_num)
  have hmax : (11:ℝ) < f64MAX := by norm_num [f64MAX]
  linarith

theorem c4_norm115_not_lt : ¬ (Vec2.new 11 5).norm < (Vec2.new 9 5).norm := by
  rw [c4_norm95, c4_norm115]
  exact not_lt.mpr (Real.sqrt_le_sqrt (by norm_num))

/-- Evaluation of `cast_ray` at the C4 input: rectangle centred at `(10,0)`
with half-extents 1, ray from `(12,5)` with direction `(-10,0)`. -/
theorem c4_cast_eval :
    (Rect.mk 1 1).cast_ray (Vec2.new 10 0) (Vec2.new 12 5) (Vec2.new (-10) 0)
      = some (Vec2.new 9 5) := by
  have hb : (Rect.mk 1 1).borders (Vec2.new 10 0)
      = [(Vec2.new 9 (-1), Vec2.new 0 2), (Vec2.new 9 1, Vec2.new 2 0),
         (Vec2.new 11 (-1), Vec2.new 0 2), (Vec2.new 9 (-1), Vec2.new 2 0)] := by
    simp only [Rect.borders, Rect.bounds, Vec2.new]
    norm_num
  rw [Rect.cast_ray, hb]
  simp only [List.foldl]
  rw [c4_li1, c4_li2, c4_li3, c4_li4]
  rw [cast_ray_step_take (f64MAX, none) (Vec2.new 9 5) c4_norm95_lt_max]
  rw [cast_ray_step_none]
  rw [cast_ray_step_keep _ (Vec2.new 11 5) c4_norm115_not_lt]
  rw [cast_ray_step_none]

/-- Witness for the amended C4 at the concrete input of `c4_cast_eval`. -/
theorem c4_cast_ray_closest_witness :
    (∃ bd ∈ (Rect.mk 1 1).borders (Vec2.new 10 0),
        lines_intersect (Vec2.new 12 5) (Vec2.new (-10) 0) bd.1 bd.2
          = some (Vec2.new 9 5))
    ∧ (Vec2.new 9 5).norm < f64MAX
    ∧ ∀ bd ∈ (Rect.mk 1 1).borders (Vec2.new 10 0), ∀ q,
        lines_intersect (Vec2.new 12 5) (Vec2.new (-10) 0) bd.1 bd.2 = some q
          → (Vec2.new 9 5).norm ≤ q.norm :=
  (c4_cast_ray_closest (Rect.mk 1 1) (Vec2.new 10 0) (Vec2.new 12 5)
      (Vec2.new (-10) 0)).1 (Vec2.new 9 5) c4_cast_eval

theorem c4_seg1 : segment_hit (Vec2.new 12 5) (Vec2.new (-10) 0)
    (Vec2.new 9 (-1)) (Vec2.new 0 2) = none := by
  simp only [segment_hit, Vec2.new]
  norm_num

theorem c4_seg2 : segment_hit (Vec2.new 12 5) (Vec2.new (-10) 0)
    (Vec2.new 9 1) (Vec2.new 2 0) = none := by
  simp only [segment_hit, Vec2.new]
  norm_num

theorem c4_seg3 : segment_hit (Vec2.new 12 5) (Vec2.new (-10) 0)
    (Vec2.new 11 (-1)) (Vec2.new 0 2) = none := by
  simp only [segment_hit, Vec2.new]
  norm_num

theorem c4_seg4 : segment_hit (Vec2.new 12 5) (Vec2.new (-10) 0)
    (Vec2.new 9 (-1)) (Vec2.new 2 0) = none := by
  simp only [segment_hit, Vec2.new]
  norm_num

/-- Counterexample to C4 as stated: at the `c4_cast_eval` input the code
returns `(9,5)`, a point on no edge segment (the claim's segment-constrained
reading returns `None`), and even among the two supporting-line hits the code
keeps the one farther from the ray's origin `(12,5)` — `(11,5)` is strictly
closer to the ray origin than `(9,5)` — because it compares distances from
the world origin instead. -/
theorem c4_counterexample :
    (Rect.mk 1 1).cast_ray (Vec2.new 10 0) (Vec2.new 12 5) (Vec2.new (-10) 0)
      = some (Vec2.new 9 5) ∧
    cast_ray_claimed (Rect.mk 1 1) (Vec2.new 10 0) (Vec2.new 12 5)
      (Vec2.new (-10) 0) = none ∧
    (Vec2.new 11 5 - Vec2.new 12 5).norm < (Vec2.new 9 5 - Vec2.new 12 5).norm := by
  refine ⟨c4_cast_eval, ?_, ?_⟩
  · have hb : (Rect.mk 1 1).borders (Vec2.new 10 0)
        = [(Vec2.new 9 (-1), Vec2.new 0 2), (Vec2.new 9 1, Vec2.new 2 0),
           (Vec2.new 11 (-1), Vec2.new 0 2), (Vec2.new 9 (-1), Vec2.new 2 0)] := by
      simp only [Rect.borders, Rect.bounds, Vec2.new]
      norm_num
    rw [cast_ray_claimed, hb]
    simp only [List.foldl]
    rw [c4_seg1, c4_seg2, c4_seg3, c4_seg4]
    rfl
  · rw [show Vec2.new 11 5 - Vec2.new 12 5 = Vec2.mk (-1) 0 by
      ext <;> norm_num [Vec2.sub_def, Vec2.new]]
    rw [show Vec2.new 9 5 - Vec2.new 12 5 = Vec2.mk (-3) 0 by
      ext <;> norm_num [Vec2.sub_def, Vec2.new]]
    rw [Vec2.norm_eval (-1) 0 1 (by norm_num) (by norm_num)]
    rw [Vec2.norm_eval (-3) 0 3 (by norm_num) (by norm_num)]
    norm_num

end Dio
